import Mathlib

/-!
Verification of the authorization and state-transition policy of the
Gmail-Agent repository (two Streamlit variants: `app.py`, the basic
variant, and `app_demo.py`, the approval variant).

Python strings are embedded as `List Char`; the Python string helpers
(`str.split`, `str.strip`, `str.lower`) are given executable Lean
counterparts with the same semantics.  The remote collaborators (the
OAuth flow, the language model, the Gmail API) are parameterized by the
values they return, and each handler is a pure function from session
state and collaborator results to the new session state plus a trace of
the external effects it issues, in order.
-/

/-- A Python string, embedded as its list of characters. -/
abbrev PyStr := List Char

/-- Python `str.split(sep)` for a single-character separator: splits on
every occurrence of `sep`, keeping empty segments, and returns `[s]`
(a one-element list) when `sep` does not occur.  On the empty string it
returns `[[]]`, as Python does. -/
def splitOnChar (sep : Char) : PyStr → List PyStr
  | [] => [[]]
  | c :: cs =>
    let rest := splitOnChar sep cs
    if c = sep then [] :: rest
    else
      match rest with
      | [] => [[c]]
      | r :: rs => (c :: r) :: rs

/-- The segment of `s` after the last occurrence of `sep`, or all of `s`
when `sep` does not occur: the value Python computes as
`s.split(sep)[-1]`. -/
def afterLastSep (sep : Char) : PyStr → PyStr
  | [] => []
  | c :: cs =>
    if sep ∈ cs then afterLastSep sep cs
    else if c = sep then cs
    else c :: cs

/-- Python `str.lower`, restricted to the character-wise case mapping. -/
def pyLower (s : PyStr) : PyStr := s.map Char.toLower

/-- Whitespace characters recognized by Python `str.strip()` (the ASCII
ones; the source only ever strips spaces around addresses). -/
def isPySpace (c : Char) : Bool :=
  c = ' ' || c = '\t' || c = '\n' || c = '\r' || c = '\x0b' || c = '\x0c'

/-- Python `str.strip()`: drop leading and trailing whitespace. -/
def pyStrip (s : PyStr) : PyStr :=
  ((s.dropWhile isPySpace).reverse.dropWhile isPySpace).reverse

/-- `ALLOWED_DOMAINS = {"iands.com", "kogo.ai"}` shared by both
variants (`app.py` line 18, `app_demo.py` line 20). -/
def ALLOWED_DOMAINS : List PyStr := ["iands.com".toList, "kogo.ai".toList]

/-- `is_allowed_user` (`app.py` lines 47-49, `app_demo.py` lines 74-75):
`email.split("@")[-1].lower() in ALLOWED_DOMAINS`. -/
def is_allowed_user (email : PyStr) : Bool :=
  decide (pyLower ((splitOnChar '@' email).getLastD []) ∈ ALLOWED_DOMAINS)

/-- The domain of an email string under the convention the source uses:
everything after the last `'@'`, the whole string when there is none. -/
def domainOf (email : PyStr) : PyStr := afterLastSep '@' email

/-- `parse_emails` (`app_demo.py` lines 77-79): split the input on commas,
strip each segment, keep the non-empty ones. -/
def parse_emails (input_str : PyStr) : List PyStr :=
  ((splitOnChar ',' input_str).map pyStrip).filter (fun e => !e.isEmpty)

-- Basic sanity of the embedding on concrete strings.
example : splitOnChar '@' "a@b.com".toList = ["a".toList, "b.com".toList] := by decide
example : splitOnChar '@' "".toList = [[]] := by decide
example : is_allowed_user "Bob@IANDS.com".toList = true := by decide
example : is_allowed_user "bob@evil.com".toList = false := by decide
example : parse_emails "a@x.com, b@y.com ".toList = ["a@x.com".toList, "b@y.com".toList] := by
  decide

/-- `splitOnChar` never returns the empty list. -/
theorem splitOnChar_ne_nil (sep : Char) (s : PyStr) : splitOnChar sep s ≠ [] := by
  cases s with
  | nil => simp [splitOnChar]
  | cons c cs =>
    simp only [splitOnChar]
    by_cases h : c = sep
    · simp [h]
    · simp only [h, if_false]
      cases splitOnChar sep cs <;> simp

/-- When the separator does not occur, `splitOnChar` returns the single
segment `[s]`. -/
theorem splitOnChar_of_not_mem (sep : Char) (s : PyStr) (h : sep ∉ s) :
    splitOnChar sep s = [s] := by
  induction s with
  | nil => rfl
  | cons c cs ih =>
    have hc : c ≠ sep := fun hc => h (hc ▸ List.mem_cons_self c cs)
    have hcs : sep ∉ cs := fun hm => h (List.mem_cons_of_mem c hm)
    simp [splitOnChar, hc, ih hcs]

/-- When the separator does occur, the split has at least two segments. -/
theorem splitOnChar_length_of_mem (sep : Char) (s : PyStr) (h : sep ∈ s) :
    2 ≤ (splitOnChar sep s).length := by
  induction s with
  | nil => cases h
  | cons c cs ih =>
    simp only [splitOnChar]
    by_cases hc : c = sep
    · simp only [hc, if_true, List.length_cons]
      have := List.length_pos_of_ne_nil (splitOnChar_ne_nil sep cs)
      omega
    · have hm : sep ∈ cs := by
        rcases List.mem_cons.mp h with h1 | h2
        · exact absurd h1.symm hc
        · exact h2
      simp only [hc, if_false]
      rcases hrest : splitOnChar sep cs with _ | ⟨r, rs⟩
      · exact absurd hrest (splitOnChar_ne_nil sep cs)
      · have := ih hm
        rw [hrest] at this
        simpa using this

/-- The last element of a list does not depend on the default when the
list is non-empty. -/
theorem getLastD_of_ne_nil {α : Type} (l : List α) (d₁ d₂ : α) (h : l ≠ []) :
    l.getLastD d₁ = l.getLastD d₂ := by
  cases l with
  | nil => exact absurd rfl h
  | cons a as =>
    simp only [List.getLastD_cons]

/-- The last segment of the split is exactly the text after the last
occurrence of the separator: `s.split(sep)[-1] = afterLastSep sep s`. -/
theorem splitOnChar_getLastD (sep : Char) (s : PyStr) :
    (splitOnChar sep s).getLastD [] = afterLastSep sep s := by
  induction s with
  | nil => rfl
  | cons c cs ih =>
    simp only [splitOnChar, afterLastSep]
    by_cases hm : sep ∈ cs
    · by_cases hc : c = sep
      · simp only [hc, if_true, hm, List.getLastD_cons, ite_true]
        rw [getLastD_of_ne_nil _ _ [] (splitOnChar_ne_nil sep cs)]
        exact ih
      · simp only [hc, if_false, hm, ite_true]
        rcases hrest : splitOnChar sep cs with _ | ⟨r, rs⟩
        · exact absurd hrest (splitOnChar_ne_nil sep cs)
        · have hlen := splitOnChar_length_of_mem sep cs hm
          rw [hrest] at hlen
          have hrs : rs ≠ [] := by
            intro hnil
            rw [hnil] at hlen
            simp at hlen
          simp only [List.getLastD_cons]
          rw [getLastD_of_ne_nil rs (c :: r) r hrs]
          have : (splitOnChar sep cs).getLastD [] = rs.getLastD r := by
            rw [hrest, List.getLastD_cons]
          rw [← this, ih]
    · rw [splitOnChar_of_not_mem sep cs hm]
      by_cases hc : c = sep
      · simp [hc, hm]
      · simp [hc, hm]

/-! ## Effects and shared session-state machinery -/

/-- An external effect issued by a handler, in program order: a write or
delete of a credential token file (keyed by the email in the file name),
or one of the three Gmail API calls. -/
inductive Effect : Type
  | tokenWrite (email : PyStr)
  | tokenDelete (email : PyStr)
  | draftCreate (toList : List PyStr) (subject : PyStr) (body : PyStr)
      (ccList : Option (List PyStr))
  | sendMessage (toList : List PyStr) (subject : PyStr) (body : PyStr)
      (ccList : Option (List PyStr))
  | draftDelete (draftId : PyStr)
deriving DecidableEq, Repr

/-- The token directory on disk: which `tokens/token_{key}.json` files
exist, indexed by the `{key}` part (the email interpolated into the
file name). -/
def Disk : Type := PyStr → Bool

/-- The `{key}` Python interpolates into `f"tokens/token_{email}.json"`:
the email itself, or the text `None` when the session email is unset. -/
def tokenKey : Option PyStr → PyStr
  | some e => e
  | none => "None".toList

/-- Python truthiness of an optional string: `None` and `""` are falsy. -/
def truthyStr : Option PyStr → Bool
  | some l => !l.isEmpty
  | none => false

/-- `if os.path.exists(token_file): os.remove(token_file)` from the
basic variant's Logout handler (`app.py` lines 128-130). -/
def removeIfExists (disk : Disk) (key : PyStr) : Disk × List Effect :=
  if disk key then
    (fun f => if f = key then false else disk f, [Effect.tokenDelete key])
  else (disk, [])

namespace Basic

/-- Session state of the basic variant (`app.py` lines 97-101):
`user_service` (the API client object, opaque here) and `user_email`. -/
structure SessionState : Type where
  user_service : Option Unit
  user_email : Option PyStr
deriving DecidableEq, Repr

/-- The initial (Anonymous) session state: both keys `None`. -/
def initState : SessionState := ⟨none, none⟩

/-- `get_gmail_service` (`app.py` lines 52-73).  The OAuth flow and the
profile fetch are external collaborators, parameterized by the email
they report.  The function checks `is_allowed_user` and raises
`PermissionError` before any write; only on success does it write the
token file and return the service and email.  The result pairs the
outcome with the disk effects issued, in order. -/
def get_gmail_service (user_email : PyStr) :
    Except Unit (Unit × PyStr) × List Effect :=
  if is_allowed_user user_email then
    (Except.ok ((), user_email), [Effect.tokenWrite user_email])
  else
    (Except.error (), [])

/-- The `Authenticate Gmail` click handler (`app.py` lines 107-114):
calls `get_gmail_service`, stores service and email in the session on
success, catches any exception and shows it as an error otherwise.
The final component reports whether an error message was surfaced. -/
def authClick (s : SessionState) (profileEmail : PyStr) :
    SessionState × List Effect × Bool :=
  match get_gmail_service profileEmail with
  | (Except.ok (svc, em), effs) => (⟨some svc, some em⟩, effs, false)
  | (Except.error _, effs) => (s, effs, true)

/-- The `Switch Account` click handler (`app.py` lines 121-124): clears
both session keys, leaves the disk untouched. -/
def switchClick (_ : SessionState) (disk : Disk) :
    SessionState × Disk × List Effect :=
  (⟨none, none⟩, disk, [])

/-- The `Logout` click handler (`app.py` lines 127-134): removes the
current principal's token file if it exists, then clears both session
keys. -/
def logoutClick (s : SessionState) (disk : Disk) :
    SessionState × Disk × List Effect :=
  let r := removeIfExists disk (tokenKey s.user_email)
  (⟨none, none⟩, r.1, r.2)

/-- Whether a script run with session state `s` reaches the email
generation section.  The hard UI block (`app.py` lines 137-139) stops
the run when `user_email` is truthy and `is_allowed_user` rejects it;
otherwise the generation UI is shown iff `user_service` is truthy
(`app.py` line 142). -/
def genExposed (s : SessionState) : Bool :=
  match s.user_email with
  | some e => if !e.isEmpty && !is_allowed_user e then false else s.user_service.isSome
  | none => s.user_service.isSome

end Basic

namespace Demo

/-- Session state of the approval variant (`app_demo.py` lines 131-137):
the authenticated principal plus the pending-draft fields, all
initialized to `None`. -/
structure SessionState : Type where
  user_service : Option Unit
  user_email : Option PyStr
  generated_email : Option PyStr
  generated_subject : Option PyStr
  generated_to : Option (List PyStr)
  generated_cc : Option (List PyStr)
  draft_id : Option PyStr
deriving DecidableEq, Repr

/-- The initial (Anonymous) session state: every key `None`. -/
def initState : SessionState := ⟨none, none, none, none, none, none, none⟩

/-- `get_gmail_service` (`app_demo.py` lines 82-96): same shape as the
basic variant — domain check and `PermissionError` before any write,
token file written only on success. -/
def get_gmail_service (user_email : PyStr) :
    Except Unit (Unit × PyStr) × List Effect :=
  if is_allowed_user user_email then
    (Except.ok ((), user_email), [Effect.tokenWrite user_email])
  else
    (Except.error (), [])

/-- The `Authenticate Gmail` click handler (`app_demo.py` lines
143-150): stores service and email on success, shows the error and
leaves the state untouched on failure. -/
def authClick (s : SessionState) (profileEmail : PyStr) :
    SessionState × List Effect × Bool :=
  match get_gmail_service profileEmail with
  | (Except.ok (svc, em), effs) =>
      ({ s with user_service := some svc, user_email := some em }, effs, false)
  | (Except.error _, effs) => (s, effs, true)

/-- The `Logout` click handler (`app_demo.py` lines 153-156): clears
`user_service` and `user_email` only; no file is touched. -/
def logoutClick (s : SessionState) (disk : Disk) :
    SessionState × Disk × List Effect :=
  ({ s with user_service := none, user_email := none }, disk, [])

/-- Whether a script run with session state `s` reaches the
`Generate Email` section: gated only on `user_service` being truthy
(`app_demo.py` line 159); no allow-list re-check exists in this
variant. -/
def genExposed (s : SessionState) : Bool :=
  s.user_service.isSome

/-- Whether the review/approval section (with the Send and Cancel
buttons) is rendered: `if st.session_state.generated_email:`
(`app_demo.py` line 185). -/
def inApproval (s : SessionState) : Bool :=
  truthyStr s.generated_email

/-- The `Generate & Create Draft` click handler (`app_demo.py` lines
166-182).  The language model and the draft-create API are external
collaborators, parameterized by the content, subject, and draft id they
return.  The handler stores the generated fields (recipients parsed by
`parse_emails`, cc `None` when the cc input is falsy) and issues one
draft-create call. -/
def generateDraftClick (s : SessionState) (to_email cc_email : PyStr)
    (genContent genSubject draftId : PyStr) : SessionState × List Effect :=
  let toList := parse_emails to_email
  let ccList : Option (List PyStr) :=
    if !cc_email.isEmpty then some (parse_emails cc_email) else none
  ({ s with
      generated_email := some genContent,
      generated_subject := some genSubject,
      generated_to := some toList,
      generated_cc := ccList,
      draft_id := some draftId },
   [Effect.draftCreate toList genSubject genContent ccList])

/-- `send_gmail_message` (`app_demo.py` lines 114-128): issues the send
call; when it succeeds and `draft_id` is truthy, issues the draft-delete
call.  `sendOk` and `deleteOk` parameterize whether each remote call
succeeds; a failing call raises, aborting the rest of the function.
Returns the effect trace in order and whether an exception escaped. -/
def send_gmail_message (to_list : List PyStr) (subject body : PyStr)
    (cc_list : Option (List PyStr)) (draft_id : Option PyStr)
    (sendOk deleteOk : Bool) : List Effect × Bool :=
  let sendEff := Effect.sendMessage to_list subject body cc_list
  if !sendOk then ([sendEff], true)
  else if truthyStr draft_id then
    ([sendEff, Effect.draftDelete (draft_id.getD [])], !deleteOk)
  else
    ([sendEff], false)

/-- `reset_fields` (`app_demo.py` lines 200-205): clears the five
pending-draft keys. -/
def reset_fields (s : SessionState) : SessionState :=
  { s with
      generated_email := none,
      generated_subject := none,
      generated_to := none,
      generated_cc := none,
      draft_id := none }

/-- The `Cancel` click handler (`app_demo.py` lines 208-210): calls
`reset_fields` and shows a warning; no API call is issued. -/
def cancelClick (s : SessionState) : SessionState × List Effect :=
  (reset_fields s, [])

/-- The `Send Email` click handler (`app_demo.py` lines 213-223): calls
`send_gmail_message` with the stored pending-draft fields; when it
returns normally, shows success and calls `reset_fields`; when it
raises, the success message and `reset_fields` are skipped and the
exception surfaces.  The final component reports whether the action
failed. -/
def sendClick (s : SessionState) (sendOk deleteOk : Bool) :
    SessionState × List Effect × Bool :=
  let r := send_gmail_message (s.generated_to.getD [])
      (s.generated_subject.getD []) (s.generated_email.getD [])
      s.generated_cc s.draft_id sendOk deleteOk
  if r.2 then (s, r.1, true) else (reset_fields s, r.1, false)

end Demo

/-! ## Helper lemmas for the access gate -/

/-- Prepending a local part and an `'@'` does not change the text after
the last `'@'`. -/
theorem afterLastSep_append (sep : Char) (x d : PyStr) :
    afterLastSep sep (x ++ sep :: d) = afterLastSep sep (sep :: d) := by
  induction x with
  | nil => rfl
  | cons c cx ih =>
    have hm : sep ∈ cx ++ sep :: d :=
      List.mem_append.mpr (Or.inr (List.mem_cons_self _ _))
    simpa [afterLastSep, hm] using ih

/-- `is_allowed_user` computed through `domainOf`. -/
theorem is_allowed_user_eq_domain (e : PyStr) :
    is_allowed_user e = decide (pyLower (domainOf e) ∈ ALLOWED_DOMAINS) := by
  unfold is_allowed_user domainOf
  rw [splitOnChar_getLastD]

/-! ## Claim theorems -/

/-- C1: for every input string `e`, `is_allowed_user e` is true iff the
domain of `e` (the text after the last `'@'`, per the source's
`split("@")[-1]`) is in the fixed allow-list, compared
case-insensitively via lowercasing, and the result is independent of
the local-part content (two emails sharing the domain part agree).
Purity is inherent in the embedding: `is_allowed_user` is a function of
its argument and the compiled-in constant `ALLOWED_DOMAINS` alone. -/
theorem C1_isAllowed_domain_membership :
    (∀ e : PyStr, is_allowed_user e = true ↔
      pyLower (domainOf e) ∈ ALLOWED_DOMAINS) ∧
    (∀ x y d : PyStr,
      is_allowed_user (x ++ '@' :: d) = is_allowed_user (y ++ '@' :: d)) := by
  constructor
  · intro e
    rw [is_allowed_user_eq_domain]
    exact decide_eq_true_iff
  · intro x y d
    rw [is_allowed_user_eq_domain, is_allowed_user_eq_domain]
    unfold domainOf
    rw [afterLastSep_append, ← afterLastSep_append '@' y d]

/-- C1 witness: the characterization and the local-part independence at
concrete inputs. -/
theorem C1_isAllowed_domain_membership_witness :
    (is_allowed_user "Admin@IANDS.COM".toList = true ↔
      pyLower (domainOf "Admin@IANDS.COM".toList) ∈ ALLOWED_DOMAINS) ∧
    is_allowed_user ("alice".toList ++ '@' :: "kogo.ai".toList) =
      is_allowed_user ("bob".toList ++ '@' :: "kogo.ai".toList) :=
  ⟨C1_isAllowed_domain_membership.1 "Admin@IANDS.COM".toList,
   C1_isAllowed_domain_membership.2 "alice".toList "bob".toList "kogo.ai".toList⟩

/-- C2 counterexample: in the basic variant, authenticating as a
disallowed email raises the error with an EMPTY effect trace — no
credential write happens, contradicting the claimed write-then-reject
ordering (`app.py` lines 62-71 check the domain and raise BEFORE the
token file is opened). -/
theorem C2_write_then_reject_counterexample :
    (Basic.get_gmail_service "mallory@evil.com".toList).1 = Except.error () ∧
    (Basic.get_gmail_service "mallory@evil.com".toList).2 = [] := by
  constructor <;> rfl

/-- C2 amended: in the basic variant's authenticate operation, when the
authenticated email's domain fails the allow-list check, the
`PermissionError` is raised BEFORE any persistence and the credential is
never written (empty effect trace); the token file is written exactly
when the check passes. -/
theorem C2_reject_before_write (e : PyStr) :
    (is_allowed_user e = false →
      Basic.get_gmail_service e = (Except.error (), [])) ∧
    (is_allowed_user e = true →
      Basic.get_gmail_service e = (Except.ok ((), e), [Effect.tokenWrite e])) := by
  constructor <;> intro h <;> simp [Basic.get_gmail_service, h]

/-- C2 witness: both branches at concrete emails. -/
theorem C2_reject_before_write_witness :
    Basic.get_gmail_service "mallory@evil.com".toList = (Except.error (), []) ∧
    Basic.get_gmail_service "alice@iands.com".toList =
      (Except.ok ((), "alice@iands.com".toList),
       [Effect.tokenWrite "alice@iands.com".toList]) :=
  ⟨(C2_reject_before_write "mallory@evil.com".toList).1 (by rfl),
   (C2_reject_before_write "alice@iands.com".toList).2 (by rfl)⟩

/-- A corrupted approval-variant session: the service object is set but
the session email's domain is not in the allow-list. -/
def evilDemoState : Demo.SessionState :=
  { Demo.initState with
      user_service := some (),
      user_email := some "mallory@evil.com".toList }

/-- C3 counterexample: in the approval variant there is no allow-list
re-check before the generation UI — a session illegitimately populated
with a disallowed email still has the generation section exposed, and
clicking `Generate & Create Draft` issues a draft-create call. -/
theorem C3_gate_recheck_counterexample :
    is_allowed_user "mallory@evil.com".toList = false ∧
    Demo.genExposed evilDemoState = true ∧
    (Demo.generateDraftClick evilDemoState "victim@x.com".toList []
        "body".toList "subj".toList "d1".toList).2 =
      [Effect.draftCreate ["victim@x.com".toList] "subj".toList
        "body".toList none] := by
  refine ⟨by rfl, by rfl, by rfl⟩

/-- C3 amended: only the basic variant re-checks the gate — its hard UI
block stops any run whose session email is a non-empty string rejected
by `is_allowed_user` before the generation section; the approval
variant exposes the generation UI solely on `user_service` being set,
with no re-check of the session email. -/
theorem C3_gate_recheck (s : Basic.SessionState) (t : Demo.SessionState)
    (e : PyStr) (h1 : s.user_email = some e) (h2 : e ≠ [])
    (h3 : is_allowed_user e = false) :
    Basic.genExposed s = false ∧
    Demo.genExposed t = t.user_service.isSome := by
  refine ⟨?_, rfl⟩
  have h2' : e.isEmpty = false := by
    cases e with
    | nil => exact absurd rfl h2
    | cons a as => rfl
  simp [Basic.genExposed, h1, h2', h3]

/-- C3 witness: the amended statement at a concrete corrupted state. -/
theorem C3_gate_recheck_witness :
    Basic.genExposed ⟨some (), some "mallory@evil.com".toList⟩ = false ∧
    Demo.genExposed evilDemoState = evilDemoState.user_service.isSome :=
  C3_gate_recheck ⟨some (), some "mallory@evil.com".toList⟩ evilDemoState
    "mallory@evil.com".toList rfl (by decide) (by rfl)

/-- An approval-variant session authenticated as `alice@iands.com`. -/
def demoLoggedInState : Demo.SessionState :=
  { Demo.initState with
      user_service := some (),
      user_email := some "alice@iands.com".toList }

/-- A token directory containing exactly the credential file of
`alice@iands.com`. -/
def diskWithAlice : Disk := fun f => decide (f = "alice@iands.com".toList)

/-- C4 counterexample: in the approval variant, Logout clears
`user_service` and `user_email` but the credential file of the current
principal is still on disk afterwards (`app_demo.py` lines 153-156
never touch the file system), contradicting the claim that after Logout
the file no longer exists in both variants. -/
theorem C4_demo_logout_counterexample :
    (Demo.logoutClick demoLoggedInState diskWithAlice).1.user_service = none ∧
    (Demo.logoutClick demoLoggedInState diskWithAlice).1.user_email = none ∧
    (Demo.logoutClick demoLoggedInState diskWithAlice).2.1
      "alice@iands.com".toList = true := by
  refine ⟨rfl, rfl, rfl⟩

/-- C4 amended: in the basic variant, Logout deletes the current
principal's credential file and leaves the session Anonymous, while
Switch Account clears the session and leaves the disk untouched; in the
approval variant, Logout clears `user_service` and `user_email` but
leaves the credential file in place. -/
theorem C4_logout_behavior (s : Basic.SessionState) (t : Demo.SessionState)
    (disk disk2 disk3 : Disk) (e : PyStr) (h : s.user_email = some e) :
    ((Basic.logoutClick s disk).1 = Basic.initState ∧
     (Basic.logoutClick s disk).2.1 e = false) ∧
    ((Basic.switchClick s disk2).1 = Basic.initState ∧
     (Basic.switchClick s disk2).2.1 = disk2) ∧
    ((Demo.logoutClick t disk3).1.user_service = none ∧
     (Demo.logoutClick t disk3).1.user_email = none ∧
     (Demo.logoutClick t disk3).2.1 = disk3) := by
  refine ⟨⟨rfl, ?_⟩, ⟨rfl, rfl⟩, rfl, rfl, rfl⟩
  simp only [Basic.logoutClick, removeIfExists, h, tokenKey]
  by_cases hd : disk e
  · simp [hd]
  · simp [hd]

/-- C4 witness: the amended statement at concrete states and a concrete
disk. -/
theorem C4_logout_behavior_witness :
    ((Basic.logoutClick ⟨some (), some "alice@iands.com".toList⟩
        diskWithAlice).1 = Basic.initState ∧
     (Basic.logoutClick ⟨some (), some "alice@iands.com".toList⟩
        diskWithAlice).2.1 "alice@iands.com".toList = false) ∧
    ((Basic.switchClick ⟨some (), some "alice@iands.com".toList⟩
        diskWithAlice).1 = Basic.initState ∧
     (Basic.switchClick ⟨some (), some "alice@iands.com".toList⟩
        diskWithAlice).2.1 = diskWithAlice) ∧
    ((Demo.logoutClick demoLoggedInState diskWithAlice).1.user_service = none ∧
     (Demo.logoutClick demoLoggedInState diskWithAlice).1.user_email = none ∧
     (Demo.logoutClick demoLoggedInState diskWithAlice).2.1 = diskWithAlice) :=
  C4_logout_behavior ⟨some (), some "alice@iands.com".toList⟩ demoLoggedInState
    diskWithAlice diskWithAlice diskWithAlice "alice@iands.com".toList rfl

/-- C6: in both variants, an Authenticate attempt whose reported email
has a disallowed domain leaves the session Anonymous (`user_service`
and `user_email` stay `None`, since `get_gmail_service` raises before
the handler's assignments), issues no effect, and surfaces the
`PermissionError` to the operator via `st.error`. -/
theorem C6_denied_auth_stays_anonymous (e : PyStr)
    (h : is_allowed_user e = false) :
    Basic.authClick Basic.initState e = (Basic.initState, [], true) ∧
    Demo.authClick Demo.initState e = (Demo.initState, [], true) := by
  constructor
  · simp [Basic.authClick, Basic.get_gmail_service, h]
  · simp [Demo.authClick, Demo.get_gmail_service, h]

/-- C6 witness: a concrete disallowed email. -/
theorem C6_denied_auth_stays_anonymous_witness :
    Basic.authClick Basic.initState "mallory@evil.com".toList =
      (Basic.initState, [], true) ∧
    Demo.authClick Demo.initState "mallory@evil.com".toList =
      (Demo.initState, [], true) :=
  C6_denied_auth_stays_anonymous "mallory@evil.com".toList (by rfl)

/-- An approval-variant session in the PendingApproval state: principal
`alice@iands.com`, generated draft fields populated, draft id `d42`. -/
def pendingDemoState : Demo.SessionState :=
  { user_service := some (),
    user_email := some "alice@iands.com".toList,
    generated_email := some "Hello body".toList,
    generated_subject := some "Subject".toList,
    generated_to := some ["bob@x.com".toList],
    generated_cc := none,
    draft_id := some "d42".toList }

/-- C5 counterexample: when the delete call fails after a successful
send, the exception escapes `send_gmail_message`, so `reset_fields` is
skipped — the session keeps all PendingDraft fields (it does not return
to Authenticated) and the Send action reports failure, contradicting
the claim that PendingDraft is cleared and the delete failure is not
reported as a failure of the send. -/
theorem C5_delete_failure_counterexample :
    (Demo.sendClick pendingDemoState true false).1 = pendingDemoState ∧
    (Demo.sendClick pendingDemoState true false).2.2 = true := by
  refine ⟨rfl, rfl⟩

/-- C5 amended: Send from Authenticated+PendingApproval with a valid
(non-empty) draft identifier issues exactly one send call then exactly
one delete call, in that order, even when the delete fails (the send is
never rolled back or re-issued); when the delete succeeds the state
returns to Authenticated with the PendingDraft fields cleared, but when
the delete fails the fields are NOT cleared and the failure surfaces as
a failure of the Send action. -/
theorem C5_send_then_delete (s : Demo.SessionState) (toL : List PyStr)
    (subj body d : PyStr) (deleteOk : Bool)
    (hto : s.generated_to = some toL) (hs : s.generated_subject = some subj)
    (hb : s.generated_email = some body) (hd : s.draft_id = some d)
    (hdne : d ≠ []) :
    (Demo.sendClick s true deleteOk).2.1 =
      [Effect.sendMessage toL subj body s.generated_cc,
       Effect.draftDelete d] ∧
    (deleteOk = true →
      (Demo.sendClick s true deleteOk).1 = Demo.reset_fields s ∧
      (Demo.sendClick s true deleteOk).2.2 = false) ∧
    (deleteOk = false →
      (Demo.sendClick s true deleteOk).1 = s ∧
      (Demo.sendClick s true deleteOk).2.2 = true) := by
  have hdne' : d.isEmpty = false := by
    cases d with
    | nil => exact absurd rfl hdne
    | cons a as => rfl
  cases deleteOk <;>
    simp [Demo.sendClick, Demo.send_gmail_message, truthyStr,
      hto, hs, hb, hd, hdne']

/-- C5 witness: the amended statement at the concrete pending state with
a succeeding delete. -/
theorem C5_send_then_delete_witness :
    (Demo.sendClick pendingDemoState true true).2.1 =
      [Effect.sendMessage ["bob@x.com".toList] "Subject".toList
        "Hello body".toList pendingDemoState.generated_cc,
       Effect.draftDelete "d42".toList] ∧
    (true = true →
      (Demo.sendClick pendingDemoState true true).1 =
        Demo.reset_fields pendingDemoState ∧
      (Demo.sendClick pendingDemoState true true).2.2 = false) ∧
    (true = false →
      (Demo.sendClick pendingDemoState true true).1 = pendingDemoState ∧
      (Demo.sendClick pendingDemoState true true).2.2 = true) :=
  C5_send_then_delete pendingDemoState ["bob@x.com".toList] "Subject".toList
    "Hello body".toList "d42".toList true rfl rfl rfl rfl (by decide)

/-- C7: a successful Generate+Draft from an Authenticated approval
session with recipients input `"a@x.com, b@y.com "` (and a non-empty cc
input and non-empty generated body) stores the recipients normalized to
`["a@x.com", "b@y.com"]`, issues exactly one draft-create call with
those recipients, and moves the session to Authenticated+PendingApproval
with content, subject, recipients, cc and draft id all populated. -/
theorem C7_generate_draft_normalizes (s : Demo.SessionState)
    (cc gc gs d : PyStr) (hsvc : s.user_service = some ())
    (hgc : gc ≠ []) (hcc : cc ≠ []) :
    (Demo.generateDraftClick s "a@x.com, b@y.com ".toList cc gc gs d).1.generated_to
      = some ["a@x.com".toList, "b@y.com".toList] ∧
    (Demo.generateDraftClick s "a@x.com, b@y.com ".toList cc gc gs d).2 =
      [Effect.draftCreate ["a@x.com".toList, "b@y.com".toList] gs gc
        (some (parse_emails cc))] ∧
    Demo.inApproval
      (Demo.generateDraftClick s "a@x.com, b@y.com ".toList cc gc gs d).1
      = true ∧
    (Demo.generateDraftClick s "a@x.com, b@y.com ".toList cc gc gs d).1.user_service
      = some () ∧
    (Demo.generateDraftClick s "a@x.com, b@y.com ".toList cc gc gs d).1.generated_email
      = some gc ∧
    (Demo.generateDraftClick s "a@x.com, b@y.com ".toList cc gc gs d).1.generated_subject
      = some gs ∧
    (Demo.generateDraftClick s "a@x.com, b@y.com ".toList cc gc gs d).1.generated_cc
      = some (parse_emails cc) ∧
    (Demo.generateDraftClick s "a@x.com, b@y.com ".toList cc gc gs d).1.draft_id
      = some d := by
  have hgc' : gc.isEmpty = false := by
    cases gc with
    | nil => exact absurd rfl hgc
    | cons a as => rfl
  have hcc' : cc.isEmpty = false := by
    cases cc with
    | nil => exact absurd rfl hcc
    | cons a as => rfl
  simp [Demo.generateDraftClick, Demo.inApproval, truthyStr,
    hgc', hcc', hsvc]
  all_goals decide

/-- C7 witness: the property at concrete inputs. -/
theorem C7_generate_draft_normalizes_witness :
    (Demo.generateDraftClick demoLoggedInState "a@x.com, b@y.com ".toList
        "c@z.com".toList "Body".toList "Subj".toList "d7".toList).1.generated_to
      = some ["a@x.com".toList, "b@y.com".toList] ∧
    (Demo.generateDraftClick demoLoggedInState "a@x.com, b@y.com ".toList
        "c@z.com".toList "Body".toList "Subj".toList "d7".toList).2 =
      [Effect.draftCreate ["a@x.com".toList, "b@y.com".toList]
        "Subj".toList "Body".toList (some (parse_emails "c@z.com".toList))] ∧
    Demo.inApproval
      (Demo.generateDraftClick demoLoggedInState "a@x.com, b@y.com ".toList
        "c@z.com".toList "Body".toList "Subj".toList "d7".toList).1 = true ∧
    (Demo.generateDraftClick demoLoggedInState "a@x.com, b@y.com ".toList
        "c@z.com".toList "Body".toList "Subj".toList "d7".toList).1.user_service
      = some () ∧
    (Demo.generateDraftClick demoLoggedInState "a@x.com, b@y.com ".toList
        "c@z.com".toList "Body".toList "Subj".toList "d7".toList).1.generated_email
      = some "Body".toList ∧
    (Demo.generateDraftClick demoLoggedInState "a@x.com, b@y.com ".toList
        "c@z.com".toList "Body".toList "Subj".toList "d7".toList).1.generated_subject
      = some "Subj".toList ∧
    (Demo.generateDraftClick demoLoggedInState "a@x.com, b@y.com ".toList
        "c@z.com".toList "Body".toList "Subj".toList "d7".toList).1.generated_cc
      = some (parse_emails "c@z.com".toList) ∧
    (Demo.generateDraftClick demoLoggedInState "a@x.com, b@y.com ".toList
        "c@z.com".toList "Body".toList "Subj".toList "d7".toList).1.draft_id
      = some "d7".toList :=
  C7_generate_draft_normalizes demoLoggedInState "c@z.com".toList
    "Body".toList "Subj".toList "d7".toList rfl (by decide) (by decide)

/-- C8 counterexample: with the empty recipients input, `parse_emails`
returns the empty list, yet the Generate+Draft handler still issues the
draft-create call — with an empty recipients list — contradicting the
claim that every reachable draft-create invocation receives at least
one recipient. -/
theorem C8_empty_recipients_counterexample :
    parse_emails "".toList = [] ∧
    (Demo.generateDraftClick demoLoggedInState "".toList "".toList
        "body".toList "subj".toList "d1".toList).2 =
      [Effect.draftCreate [] "subj".toList "body".toList none] := by
  refine ⟨rfl, rfl⟩

/-- C8 amended: the Generate+Draft flow issues exactly one draft-create
call unconditionally, passing the parsed recipients list as is — there
is no non-emptiness guard, so the call receives the empty list whenever
the input contains no non-whitespace segment. -/
theorem C8_draft_call_unconditional (s : Demo.SessionState)
    (toInput cc gc gs d : PyStr) :
    (Demo.generateDraftClick s toInput cc gc gs d).2 =
      [Effect.draftCreate (parse_emails toInput) gs gc
        (if !cc.isEmpty then some (parse_emails cc) else none)] := rfl

/-- C9: Cancel from Authenticated+PendingApproval resets the five
pending-draft keys to `None`, leaves `user_service` and `user_email`
unchanged, returns the session to Authenticated (the approval section is
no longer rendered), and issues no send and no delete call. -/
theorem C9_cancel_frame (s : Demo.SessionState)
    (_h : Demo.inApproval s = true) :
    (Demo.cancelClick s).1.user_service = s.user_service ∧
    (Demo.cancelClick s).1.user_email = s.user_email ∧
    (Demo.cancelClick s).1.generated_email = none ∧
    (Demo.cancelClick s).1.generated_subject = none ∧
    (Demo.cancelClick s).1.generated_to = none ∧
    (Demo.cancelClick s).1.generated_cc = none ∧
    (Demo.cancelClick s).1.draft_id = none ∧
    Demo.inApproval (Demo.cancelClick s).1 = false ∧
    (Demo.cancelClick s).2 = [] := by
  refine ⟨rfl, rfl, rfl, rfl, rfl, rfl, rfl, rfl, rfl⟩

/-- C9 witness: Cancel at the concrete pending state. -/
theorem C9_cancel_frame_witness :
    (Demo.cancelClick pendingDemoState).1.user_service =
      pendingDemoState.user_service ∧
    (Demo.cancelClick pendingDemoState).1.user_email =
      pendingDemoState.user_email ∧
    (Demo.cancelClick pendingDemoState).1.generated_email = none ∧
    (Demo.cancelClick pendingDemoState).1.generated_subject = none ∧
    (Demo.cancelClick pendingDemoState).1.generated_to = none ∧
    (Demo.cancelClick pendingDemoState).1.generated_cc = none ∧
    (Demo.cancelClick pendingDemoState).1.draft_id = none ∧
    Demo.inApproval (Demo.cancelClick pendingDemoState).1 = false ∧
    (Demo.cancelClick pendingDemoState).2 = [] :=
  C9_cancel_frame pendingDemoState (by decide)

/-- C10: for any input string without an `'@'`, `is_allowed_user`
treats the entire lowercased string as the domain (Python's
`split("@")[-1]` is the whole string); in particular the bare domain
string `"iands.com"` passes the gate exactly like an allowed email. -/
theorem C10_no_at_whole_string_domain :
    (∀ s : PyStr, '@' ∉ s →
      is_allowed_user s = decide (pyLower s ∈ ALLOWED_DOMAINS)) ∧
    is_allowed_user "iands.com".toList = true := by
  constructor
  · intro s h
    unfold is_allowed_user
    rw [splitOnChar_of_not_mem '@' s h]
    rfl
  · decide

/-- C10 witness: the no-`'@'` case at a concrete bare domain string. -/
theorem C10_no_at_whole_string_domain_witness :
    is_allowed_user "kogo.ai".toList =
      decide (pyLower "kogo.ai".toList ∈ ALLOWED_DOMAINS) :=
  C10_no_at_whole_string_domain.1 "kogo.ai".toList (by decide)
